import Mathlib

/-
  Verification of the vSphere instance-plugin core of thebsdbox/infrakit.

  The development shallowly embeds the plugin's data model and operations:
  the property-map parser (parseParameters), the resource resolution step
  (setInternalStructures, findNetwork), VM creation with ordered device
  attachment (createNewVMInstance, addISO, addNIC, addVMDK, powerOnVM),
  group-scoped instance search (findGroupInstances), VM deletion (deleteVM)
  and the lifecycle facade (Validate, Provision, Destroy, DescribeInstances).

  Remote control-plane behaviour is modelled by a World record of outcomes;
  every embedded operation returns its result together with the ordered list
  of remote calls (Event) it makes, so that claims about call order, device
  order and side effects are statable.  Go numbers decoded from JSON are
  float64; the integral sizes the plugin reads are modelled as Int.  A Go
  panic or log.Fatalf (process exit) is the Outcome.panicked constructor.
-/

namespace VSphere

/-- A dynamic property value as Go's json decode produces it into a
map of interface values: a string, a number (float64, modelled as Int
since the plugin only reads integral sizes) or a boolean. -/
inductive PValue where
  | str (s : String)
  | num (n : Int)
  | boolean (b : Bool)
  deriving DecidableEq, Repr

/-- A decoded JSON property map (association list, first binding wins). -/
abbrev PropMap := List (String × PValue)

/-- Map lookup: properties[key], none modelling Go's nil for an absent key. -/
def lookupProp : PropMap → String → Option PValue
  | [], _ => none
  | (k, v) :: rest, key => if k = key then some v else lookupProp rest key

/-- The vCenter connection configuration (type vCenter, vSphere.go:17-22).
The Go fields are pointers shared with the flag parser; writes through them
persist, so the embedding threads this record through the operations. -/
structure VCenterCfg where
  vCenterURL : String
  dsName : String
  networkName : String
  vSphereHost : String
  deriving DecidableEq, Repr

/-- A VM instance description (type vmInstance, vSphere.go:33-55).
The Go field named annotation is called annot here. -/
structure VmInstance where
  isoPath : String
  vmTemplate : String
  groupTag : String
  instanceFolder : String
  annot : String
  vmPrefix : String
  vmName : String
  persistent : String
  persistentSz : Int
  vCpus : Int
  mem : Int
  poweron : Bool
  guestIP : Bool
  deriving DecidableEq, Repr

/-- The Go zero value of vmInstance (var newInstance vmInstance). -/
def zeroInstance : VmInstance :=
  { isoPath := "", vmTemplate := "", groupTag := "", instanceFolder := ""
    annot := "", vmPrefix := "", vmName := "", persistent := ""
    persistentSz := 0, vCpus := 0, mem := 0, poweron := false, guestIP := false }

/-- The error taxonomy of the spec, with the source's message attached.
Each errors.New site of the source is classified by the taxonomy of spec
section 7 (apostrophes of the Go message strings are omitted). -/
inductive PluginError where
  | configurationError (msg : String)
  | connectionError (msg : String)
  | resourceNotFound (msg : String)
  | taskFailure (msg : String)
  deriving DecidableEq, Repr

/-- Result of an embedded operation: a normal return, a returned Go error, or
a Go panic / log.Fatalf (the process dies; no value is returned). -/
inductive Outcome (α : Type) where
  | ok (a : α)
  | err (e : PluginError)
  | panicked (msg : String)
  deriving DecidableEq, Repr

def Outcome.bind : Outcome α → (α → Outcome β) → Outcome β
  | .ok a, f => f a
  | .err e, _ => .err e
  | .panicked m, _ => .panicked m

instance : Monad Outcome where
  pure := .ok
  bind := Outcome.bind

@[simp] theorem Outcome.bind_ok (a : α) (f : α → Outcome β) :
    Outcome.bind (.ok a) f = f a := rfl

@[simp] theorem Outcome.bind_err (e : PluginError) (f : α → Outcome β) :
    Outcome.bind (.err e) f = .err e := rfl

@[simp] theorem Outcome.bind_panicked (m : String) (f : α → Outcome β) :
    Outcome.bind (.panicked m) f = .panicked m := rfl

/-- The value of a successful outcome, none otherwise. -/
def Outcome.toOption : Outcome α → Option α
  | .ok a => some a
  | _ => none

/-- A virtual device as attached to a VM. -/
inductive Device where
  | scsiController
  | cdrom (dsName : String) (isoPath : String)
  | nic
  | disk (dsName : String) (path : String) (capacityKB : Int)
  deriving DecidableEq, Repr

/-- The VirtualMachineConfigSpec built by createNewVMInstance
(vSphere.go:257-274): name, guest id, datastore path, CPU and memory
sizes, annotation (group id, newline, instance annotation) and the device
changes submitted with the creation task. -/
structure VMConfigSpec where
  name : String
  guestId : String
  vmPathName : String
  numCPUs : Int
  memoryMB : Int
  annot : String
  deviceChange : List Device
  deriving DecidableEq, Repr

/-- A remote control-plane call, in the order the source makes them. -/
inductive Event where
  | findDatacenter
  | findDatastore (name : String)
  | readFolders
  | findHost (name : String)
  | readResourcePool
  | findNetwork (name : String)
  | findFolder (path : String)
  | createFolder (path : String)
  | createVM (cfg : VMConfigSpec)
  | waitForTask
  | attach (d : Device)
  | listVMs (pat : String)
  | findVM (name : String)
  | destroyVM (name : String)
  | powerOnVM
  deriving DecidableEq, Repr

/-- The remote behaviour the control plane exhibits during one call chain. -/
structure World where
  datacenterOk : Bool
  datastores : List String
  foldersOk : Bool
  hosts : List String
  poolOk : Bool
  networks : List String
  folderExists : String → Bool
  createSubmitOk : Bool
  createTaskOk : Bool
  ideOk : Bool
  nicOk : Bool
  vmdkOk : Bool
  destroySubmitOk : Bool
  destroyTaskOk : Bool
  powerSubmitOk : Bool
  powerTaskOk : Bool
  inventory : String → List String

/- Error messages of the source (vSphere.go), apostrophes omitted. -/

def urlUnsetMsg : String := "Environment variable VCURL or .yml vCenterURL must be set"

def datastoreUnsetMsg : String := "Property Datastore must be set"

def hostnameUnsetMsg : String := "Property Hostname must be set"

/-- A failed unchecked Go type assertion v.(string): runtime panic. -/
def assertStringMsg : String := "interface conversion: interface is not string"

/-- A failed unchecked Go type assertion v.(float64): runtime panic. -/
def assertFloatMsg : String := "interface conversion: interface is not float64"

def dcNotFoundMsg : String := "No Datacenter instance could be found inside of vCenter"

def dsNotFoundMsg : String := "Datastore could not be found"

def foldersMsg : String := "Error locating default datacenter folder"

def hostNotFoundMsg : String := "vSphere host could not be found"

def poolMsg : String := "Error locating default resource pool"

def netFatalMsg : String := "Network could not be found"

def blankGroupMsg : String := "The tag infrakit.group was blank"

def createSubmitMsg : String := "Creating new VM failed, more detail can be found in vCenter tasks"

def createWaitMsg : String := "Creating new VM failed"

def ideFatalMsg : String := "Unable to find IDE device from VM configuration"

def nicFatalMsg : String := "Unable to create vmxnet3 network interface"

def vmdkFatalMsg : String := "Unable to find SCSI device from VM configuration"

def vmNilMsg : String := "runtime error: invalid memory address or nil pointer dereference"

def deleteSubmitMsg : String := "Delete operation has failed, more detail can be found in vCenter tasks"

def deleteTaskMsg : String := "Delete Task has failed, more detail can be found in vCenter tasks"

def powerSubmitMsg : String := "Power On operation has failed, more detail can be found in vCenter tasks"

def powerTaskMsg : String := "Power On Task has failed, more detail can be found in vCenter tasks"

/-
  parseParameters (vSphere.go:119-187), embedded stage by stage in source
  order: vCenterURL check, Datastore, Hostname, Network (writing through
  p.vC), then the instance fields Annotation, vmPrefix, isoPath, CPUs,
  Memory, persistantSZ.  Each read of a present key is an unchecked Go type
  assertion: a value of the wrong dynamic type panics.  The function makes
  no remote call on any path.
-/

/-- An optional string property: default when absent, panic when present
with a non-string value (unchecked .(string) assertion). -/
def optStr (properties : PropMap) (key : String) (dflt : String) : Outcome String :=
  match lookupProp properties key with
  | none => .ok dflt
  | some (.str s) => .ok s
  | some _ => .panicked assertStringMsg

/-- An optional numeric property: default when absent, panic when present
with a non-numeric value (unchecked .(float64) assertion, then int()). -/
def optNum (properties : PropMap) (key : String) (dflt : Int) : Outcome Int :=
  match lookupProp properties key with
  | none => .ok dflt
  | some (.num n) => .ok n
  | some _ => .panicked assertFloatMsg

/-- The instance fields of parseParameters (vSphere.go:151-186): Annotation,
vmPrefix (default "vm"), isoPath, CPUs (default 1), Memory (default 512),
persistantSZ (default 0) — note the source key is spelled persistantSZ. -/
def parseInstanceFields (properties : PropMap) : Outcome VmInstance :=
  Outcome.bind (optStr properties "Annotation" "") fun annotV =>
  Outcome.bind (optStr properties "vmPrefix" "vm") fun pfx =>
  Outcome.bind (optStr properties "isoPath" "") fun iso =>
  Outcome.bind (optNum properties "CPUs" 1) fun cpus =>
  Outcome.bind (optNum properties "Memory" 512) fun memV =>
  Outcome.bind (optNum properties "persistantSZ" 0) fun sz =>
  .ok { zeroInstance with
          annot := annotV, vmPrefix := pfx, isoPath := iso,
          vCpus := cpus, mem := memV, persistentSz := sz }

/-- Network stage (vSphere.go:145-149): optional; absence is only a warning,
presence writes p.vC.networkName. -/
def parseNetworkStep (properties : PropMap) (vc : VCenterCfg) :
    Outcome VmInstance × VCenterCfg :=
  match lookupProp properties "Network" with
  | none => (parseInstanceFields properties, vc)
  | some (.str s) => (parseInstanceFields properties, { vc with networkName := s })
  | some _ => (.panicked assertStringMsg, vc)

/-- Hostname stage (vSphere.go:139-143): required; presence writes
p.vC.vSphereHost before the next stage runs. -/
def parseHostnameStep (properties : PropMap) (vc : VCenterCfg) :
    Outcome VmInstance × VCenterCfg :=
  match lookupProp properties "Hostname" with
  | none => (.err (.configurationError hostnameUnsetMsg), vc)
  | some (.str s) => parseNetworkStep properties { vc with vSphereHost := s }
  | some _ => (.panicked assertStringMsg, vc)

/-- Datastore stage (vSphere.go:132-137): required; presence writes
p.vC.dsName before the Hostname check runs, and that write persists even
when a later stage fails. -/
def parseDatastoreStep (properties : PropMap) (vc : VCenterCfg) :
    Outcome VmInstance × VCenterCfg :=
  match lookupProp properties "Datastore" with
  | none => (.err (.configurationError datastoreUnsetMsg), vc)
  | some (.str s) => parseHostnameStep properties { vc with dsName := s }
  | some _ => (.panicked assertStringMsg, vc)

/-- parseParameters (vSphere.go:119-187).  Returns the outcome together with
the vCenter configuration after the call: the source writes through the
pointers of p.vC, so updates made before an early return persist.  The
function performs no remote call on any path (it only reads the map and
logs); remote calls begin with setInternalStructures. -/
def parseParameters (properties : PropMap) (vc : VCenterCfg) :
    Outcome VmInstance × VCenterCfg :=
  if vc.vCenterURL = "" then
    match lookupProp properties "vCenterURL" with
    | none => (.err (.configurationError urlUnsetMsg), vc)
    | some (.str u) => parseDatastoreStep properties { vc with vCenterURL := u }
    | some _ => (.panicked assertStringMsg, vc)
  else parseDatastoreStep properties vc

/-- The internal handles held after resolution (type vcInternal,
vSphere.go:24-31), abstracted to the names resolved: the datastore and host
names, and the resolved network reference when one was found. -/
structure VcInternal where
  datastore : String
  hostSystem : String
  network : Option String
  deriving DecidableEq, Repr

/-- setInternalStructures (vSphere.go:77-117): datacenter, datastore,
datacenter folders, host, resource pool, each step independently failable;
the errors are returned (ResourceNotFound class). -/
def setInternalStructures (vc : VCenterCfg) (w : World) :
    Outcome VcInternal × List Event :=
  if ¬ w.datacenterOk then
    (.err (.resourceNotFound dcNotFoundMsg), [Event.findDatacenter])
  else if ¬ w.datastores.contains vc.dsName then
    (.err (.resourceNotFound dsNotFoundMsg),
      [Event.findDatacenter, Event.findDatastore vc.dsName])
  else if ¬ w.foldersOk then
    (.err (.resourceNotFound foldersMsg),
      [Event.findDatacenter, Event.findDatastore vc.dsName, Event.readFolders])
  else if ¬ w.hosts.contains vc.vSphereHost then
    (.err (.resourceNotFound hostNotFoundMsg),
      [Event.findDatacenter, Event.findDatastore vc.dsName, Event.readFolders,
       Event.findHost vc.vSphereHost])
  else if ¬ w.poolOk then
    (.err (.resourceNotFound poolMsg),
      [Event.findDatacenter, Event.findDatastore vc.dsName, Event.readFolders,
       Event.findHost vc.vSphereHost, Event.readResourcePool])
  else
    (.ok { datastore := vc.dsName, hostSystem := vc.vSphereHost, network := none },
      [Event.findDatacenter, Event.findDatastore vc.dsName, Event.readFolders,
       Event.findHost vc.vSphereHost, Event.readResourcePool])

/-- findNetwork (vSphere.go:189-211): finds the datacenter (log.Fatalf when
absent — the process dies), then resolves the network only when the
configured name is non-empty (log.Fatalf when it cannot be found), writing
internals.network. -/
def findNetwork (vc : VCenterCfg) (internals : VcInternal) (w : World) :
    Outcome VcInternal × List Event :=
  if ¬ w.datacenterOk then (.panicked dcNotFoundMsg, [Event.findDatacenter])
  else if vc.networkName = "" then (.ok internals, [Event.findDatacenter])
  else if w.networks.contains vc.networkName then
    (.ok { internals with network := some vc.networkName },
      [Event.findDatacenter, Event.findNetwork vc.networkName])
  else
    (.panicked netFatalMsg,
      [Event.findDatacenter, Event.findNetwork vc.networkName])

/-- Sequencing of device steps: a later step runs only when the earlier one
returned normally; the call traces concatenate. -/
def andThen (a : Outcome Unit × List Event) (b : Unit → Outcome Unit × List Event) :
    Outcome Unit × List Event :=
  match a with
  | (.ok _, ev) => ((b ()).1, ev ++ (b ()).2)
  | (o, ev) => (o, ev)

/-- addISO (vSphere.go:429-456): reads the VM devices, finds the IDE
controller (log.Fatalf when absent), creates a CD-ROM and inserts the ISO
at the datastore path of newInstance.isoPath.  The source calls it for
every created VM, whether or not an ISO path was configured. -/
def addISO (internals : VcInternal) (vm : VmInstance) (w : World) :
    Outcome Unit × List Event :=
  if ¬ w.ideOk then (.panicked ideFatalMsg, [])
  else (.ok (), [Event.attach (Device.cdrom internals.datastore vm.isoPath)])

/-- addNIC (vSphere.go:378-399): backing lookup and vmxnet3 creation
(log.Fatalf on failure), then the adapter is added to the VM. -/
def addNIC (w : World) : Outcome Unit × List Event :=
  if ¬ w.nicOk then (.panicked nicFatalMsg, [])
  else (.ok (), [Event.attach Device.nic])

/-- addVMDK (vSphere.go:401-427): finds the SCSI controller (log.Fatalf on
failure) and adds a disk named vmName/vmName.vmdk on the datastore with
capacity persistentSz * 1024 KB. -/
def addVMDK (internals : VcInternal) (vm : VmInstance) (w : World) :
    Outcome Unit × List Event :=
  if ¬ w.vmdkOk then (.panicked vmdkFatalMsg, [])
  else
    (.ok (), [Event.attach (Device.disk internals.datastore
      (vm.vmName ++ "/" ++ vm.vmName ++ ".vmdk") (vm.persistentSz * 1024))])

/-- powerOnVM (vSphere.go:362-376): submits the power-on task and waits;
both failures are returned as TaskFailure errors. -/
def powerOnVM (w : World) : Outcome Unit × List Event :=
  if ¬ w.powerSubmitOk then
    (.err (.taskFailure powerSubmitMsg), [Event.powerOnVM])
  else if ¬ w.powerTaskOk then
    (.err (.taskFailure powerTaskMsg), [Event.powerOnVM, Event.waitForTask])
  else (.ok (), [Event.powerOnVM, Event.waitForTask])

/-- findNetwork reduced to a device-chain step (its updated internals feed
addNIC in the source; the adapter event itself does not depend on them). -/
def findNetworkStep (vc : VCenterCfg) (internals : VcInternal) (w : World) :
    Outcome Unit × List Event :=
  match findNetwork vc internals w with
  | (.ok _, ev) => (.ok (), ev)
  | (.err e, ev) => (.err e, ev)
  | (.panicked m, ev) => (.panicked m, ev)

/-- createNewVMInstance (vSphere.go:253-331).  Builds the configuration
descriptor with the paravirtual SCSI controller as its one device change,
finds the datacenter (log.Fatalf when absent), locates or creates the group
folder, submits the creation task and waits (both failures returned as
TaskFailure), then attaches devices in source order: CD-ROM (addISO,
unconditionally), network adapter (findNetwork and addNIC, only when a
network reference was resolved), persistent disk (addVMDK, only when
persistentSz is positive), and finally powers on when requested. -/
def createNewVMInstance (vc : VCenterCfg) (internals : VcInternal)
    (vm : VmInstance) (groupID : String) (w : World) :
    Outcome Unit × List Event :=
  let cfg : VMConfigSpec :=
    { name := vm.vmName, guestId := "otherLinux64Guest"
      vmPathName := "[" ++ internals.datastore ++ "]"
      numCPUs := vm.vCpus, memoryMB := vm.mem
      annot := groupID ++ "\n" ++ vm.annot
      deviceChange := [Device.scsiController] }
  if ¬ w.datacenterOk then (.panicked dcNotFoundMsg, [Event.findDatacenter])
  else
    let pre : List Event :=
      [Event.findDatacenter, Event.findFolder ("infrakit/" ++ groupID)]
        ++ (if w.folderExists ("infrakit/" ++ groupID) then []
            else [Event.createFolder ("infrakit/" ++ groupID)])
    if ¬ w.createSubmitOk then
      (.err (.taskFailure createSubmitMsg), pre ++ [Event.createVM cfg])
    else if ¬ w.createTaskOk then
      (.err (.taskFailure createWaitMsg),
        pre ++ [Event.createVM cfg, Event.waitForTask])
    else
      let devs :=
        andThen (addISO internals vm w) fun _ =>
          andThen (if internals.network.isSome then
                     andThen (findNetworkStep vc internals w) fun _ => addNIC w
                   else (.ok (), [])) fun _ =>
            andThen (if vm.persistentSz > 0 then addVMDK internals vm w
                     else (.ok (), [])) fun _ =>
              if vm.poweron then powerOnVM w else (.ok (), [])
      (devs.1, pre ++ [Event.createVM cfg, Event.waitForTask] ++ devs.2)

/-- findGroupInstances (vSphere.go:213-251): refuses a blank group tag,
finds the datacenter, lists the group folder, then unconditionally lists
the whole inventory into the same variable (source line 239) — the
group-scoped result is always discarded and the full-inventory result is
returned (listing errors are only logged). -/
def findGroupInstances (groupName : String) (w : World) :
    Outcome (List String) × List Event :=
  if groupName = "" then (.err (.configurationError blankGroupMsg), [])
  else if ¬ w.datacenterOk then
    (.err (.resourceNotFound dcNotFoundMsg), [Event.findDatacenter])
  else
    (.ok (w.inventory "*"),
      [Event.findDatacenter, Event.listVMs (groupName ++ "/*"), Event.listVMs "*"])

/-- deleteVM (vSphere.go:333-360): finds the datacenter, looks the VM up by
name (the lookup error is ignored: a VM that is not found leaves foundVM
nil and the following Destroy call panics), submits the destroy task and
waits, returning TaskFailure on either failure. -/
def deleteVM (vmName : String) (w : World) : Outcome Unit × List Event :=
  if ¬ w.datacenterOk then
    (.err (.resourceNotFound dcNotFoundMsg), [Event.findDatacenter])
  else if ¬ (w.inventory "*").contains vmName then
    (.panicked vmNilMsg, [Event.findDatacenter, Event.findVM vmName])
  else if ¬ w.destroySubmitOk then
    (.err (.taskFailure deleteSubmitMsg),
      [Event.findDatacenter, Event.findVM vmName, Event.destroyVM vmName])
  else if ¬ w.destroyTaskOk then
    (.err (.taskFailure deleteTaskMsg),
      [Event.findDatacenter, Event.findVM vmName, Event.destroyVM vmName,
       Event.waitForTask])
  else
    (.ok (),
      [Event.findDatacenter, Event.findVM vmName, Event.destroyVM vmName,
       Event.waitForTask])

/-
  The InstancePlugin facade (src/unnamed/part_000).
-/

/-- Validate (facade, part_000:93-103): decodes the property blob into a
generic map and succeeds whenever decoding does — no schema check; none
models a blob that fails to decode. -/
def Validate : Option PropMap → Outcome Unit
  | none => .err (.configurationError "decode error")
  | some _ => .ok ()

/-- The tail of Provision (part_000:151-152): createNewVMInstance is called
and its returned error is discarded — only a panic (process death) stops the
call; on any other outcome the generated name is returned with no error. -/
def finishCreate (vmName : String) (vc1 : VCenterCfg) (pre : List Event)
    (created : Outcome Unit × List Event) :
    Outcome String × VCenterCfg × List Event :=
  match created.1 with
  | .panicked m => (.panicked m, vc1, pre ++ created.2)
  | _ => (.ok vmName, vc1, pre ++ created.2)

/-- Provision (facade, part_000:106-153).  startupInst is p.instance, the
flag-configured instance from the plugin's main (its vmPrefix, default
"vm-", names the VM: the name is generated before parseParameters runs and
the parsed instance is not used for it).  r models rand.Int63().  The
vmInstance parseParameters returns is discarded by the facade; the writes
into p.vC persist and drive resolution.  createNewVMInstance receives
p.instance with the generated name, and its returned error is discarded
(source line 151): only a panic there stops the call. -/
def Provision (startupInst : VmInstance) (vc : VCenterCfg) (properties : PropMap)
    (groupTag : String) (r : Nat) (w : World) :
    Outcome String × VCenterCfg × List Event :=
  let vmName := startupInst.vmPrefix ++ "-" ++ Nat.repr r
  match parseParameters properties vc with
  | (.err e, vc1) => (.err e, vc1, [])
  | (.panicked m, vc1) => (.panicked m, vc1, [])
  | (.ok _, vc1) =>
    match setInternalStructures vc1 w with
    | (.err e, ev1) => (.err e, vc1, ev1)
    | (.panicked m, ev1) => (.panicked m, vc1, ev1)
    | (.ok internals0, ev1) =>
      let net :=
        if vc1.networkName = "" then (Outcome.ok internals0, ([] : List Event))
        else findNetwork vc1 internals0 w
      match net with
      | (.panicked m, ev2) => (.panicked m, vc1, ev1 ++ ev2)
      | (.err e, ev2) => (.err e, vc1, ev1 ++ ev2)
      | (.ok internals1, ev2) =>
        finishCreate vmName vc1 (ev1 ++ ev2)
          (createNewVMInstance vc1 internals1
            { startupInst with vmName := vmName } groupTag w)

/-- Destroy (facade, part_000:185-189): the body is log.Debugln and return
nil — it performs no control-plane call and never invokes deleteVM. -/
def Destroy (_id : String) (_w : World) : Outcome Unit × List Event :=
  (.ok (), [])

/-- DescribeInstances (facade, part_000:193-236): every line of listing
logic is commented out in the source; it returns (nil, nil) for every
input, performing no control-plane call. -/
def DescribeInstances (_tags : List (String × String)) (_includeProperties : Bool)
    (_w : World) : Outcome (List String) × List Event :=
  (.ok [], [])

/-
  Derived observables and well-typedness of a property map.
-/

/-- The devices a call trace attaches to the VM, in order: the device
changes submitted with the creation task, then each post-creation attach. -/
def devicesOf : List Event → List Device
  | [] => []
  | Event.createVM cfg :: rest => cfg.deviceChange ++ devicesOf rest
  | Event.attach d :: rest => d :: devicesOf rest
  | _ :: rest => devicesOf rest

/-- Key `key` is absent or bound to a string (the .(string) assertion on it
cannot panic). -/
def strOK (m : PropMap) (key : String) : Bool :=
  match lookupProp m key with
  | none => true
  | some (.str _) => true
  | some _ => false

/-- Key `key` is absent or bound to a number (the .(float64) assertion on it
cannot panic). -/
def numOK (m : PropMap) (key : String) : Bool :=
  match lookupProp m key with
  | none => true
  | some (.num _) => true
  | some _ => false

/-- Every recognized key of the map is bound to a value of the dynamic type
parseParameters asserts for it. -/
def typedOK (m : PropMap) : Bool :=
  strOK m "vCenterURL" && strOK m "Datastore" && strOK m "Hostname" &&
  strOK m "Network" && strOK m "Annotation" && strOK m "vmPrefix" &&
  strOK m "isoPath" && numOK m "CPUs" && numOK m "Memory" &&
  numOK m "persistantSZ"

/-- A string-valued key with its parse default. -/
def getStrD (m : PropMap) (key : String) (dflt : String) : String :=
  match lookupProp m key with
  | some (.str s) => s
  | _ => dflt

/-- A number-valued key with its parse default. -/
def getNumD (m : PropMap) (key : String) (dflt : Int) : Int :=
  match lookupProp m key with
  | some (.num n) => n
  | _ => dflt

/-- The instance a well-typed map parses to. -/
def expectedInstance (m : PropMap) : VmInstance :=
  { zeroInstance with
      annot := getStrD m "Annotation" ""
      vmPrefix := getStrD m "vmPrefix" "vm"
      isoPath := getStrD m "isoPath" ""
      vCpus := getNumD m "CPUs" 1
      mem := getNumD m "Memory" 512
      persistentSz := getNumD m "persistantSZ" 0 }

/-- The network-name update the Network stage applies to the configuration. -/
def networkUpdate (m : PropMap) (vc : VCenterCfg) : VCenterCfg :=
  match lookupProp m "Network" with
  | some (.str s) => { vc with networkName := s }
  | _ => vc

/-- Modelled from the spec (claim C3): the device order the spec asserts —
controller, then network adapter if a network was resolved, then persistent
disk if requested, then removable media if an ISO path is set. -/
def specDeviceOrder (internals : VcInternal) (vm : VmInstance) : List Device :=
  [Device.scsiController]
    ++ (if internals.network.isSome then [Device.nic] else [])
    ++ (if vm.persistentSz > 0 then
          [Device.disk internals.datastore
            (vm.vmName ++ "/" ++ vm.vmName ++ ".vmdk") (vm.persistentSz * 1024)]
        else [])
    ++ (if vm.isoPath ≠ "" then
          [Device.cdrom internals.datastore vm.isoPath] else [])

/-
  Concrete fixtures: the startup configuration of the plugin's main
  (pkg/plugin/instance/vsphere/main.go), the spec's scenario property map,
  and worlds exercising the control-plane outcomes.
-/

/-- The flag-configured startup instance (main.go:33-41): vmPrefix defaults
to "vm-", memory 1024, one vCPU, power-on false, empty ISO path. -/
def startupInst : VmInstance :=
  { zeroInstance with vmPrefix := "vm-", mem := 1024, vCpus := 1 }

/-- A startup configuration whose URL flag (or VCURL) was provided. -/
def startupCfg : VCenterCfg :=
  { vCenterURL := "https://u:p@vc/sdk", dsName := "", networkName := "", vSphereHost := "" }

/-- The scenario property map of spec section 8. -/
def scenarioProps : PropMap :=
  [("Datastore", PValue.str "ds1"), ("Hostname", PValue.str "esx1"),
   ("CPUs", PValue.num 4), ("Memory", PValue.num 2048),
   ("isoPath", PValue.str "boot.iso")]

/-- A world where every remote operation succeeds; the inventory holds the
datastore ds1, the host esx1 and the network net1. -/
def okWorld : World :=
  { datacenterOk := true, datastores := ["ds1"], foldersOk := true
    hosts := ["esx1"], poolOk := true, networks := ["net1"]
    folderExists := fun _ => true, createSubmitOk := true, createTaskOk := true
    ideOk := true, nicOk := true, vmdkOk := true
    destroySubmitOk := true, destroyTaskOk := true
    powerSubmitOk := true, powerTaskOk := true, inventory := fun _ => [] }

/-- okWorld, except that the VM-creation task reports failure. -/
def createFailWorld : World := { okWorld with createTaskOk := false }

/-- A configuration with non-trivial values, to observe mutation. -/
def cfgBefore : VCenterCfg :=
  { vCenterURL := "https://u:p@vc/sdk", dsName := "oldds"
    networkName := "", vSphereHost := "oldhost" }

/-- A startup configuration whose URL flag and VCURL were both unset. -/
def noURLCfg : VCenterCfg :=
  { vCenterURL := "", dsName := "", networkName := "", vSphereHost := "" }

/-- A property map missing Hostname (Datastore present). -/
def missingHostnameProps : PropMap := [("Datastore", PValue.str "ds1")]

/-- The configuration after parsing scenario-like properties that include a
network name. -/
def cfgNet : VCenterCfg :=
  { vCenterURL := "https://u:p@vc/sdk", dsName := "ds1"
    networkName := "net1", vSphereHost := "esx1" }

/-- An instance requesting all optional devices: ISO media, a network (via
the resolved internals) and a persistent disk. -/
def fullDeviceInst : VmInstance :=
  { zeroInstance with vmName := "vm--7", isoPath := "boot.iso", persistentSz := 4096 }

/-- Internals with a resolved network reference. -/
def netInternal : VcInternal :=
  { datastore := "ds1", hostSystem := "esx1", network := some "net1" }

/-- A world whose group-scoped listing for g1 is non-empty and differs from
the full-inventory listing. -/
def groupWorld : World :=
  { okWorld with inventory := fun pat =>
      if pat = "g1/*" then ["g1/vmA"] else ["g1/vmA", "other/vmB"] }

/-- Properties carrying a vmPrefix, whose parsed prefix is "custom". -/
def customPrefixProps : PropMap :=
  [("Datastore", PValue.str "ds1"), ("Hostname", PValue.str "esx1"),
   ("vmPrefix", PValue.str "custom")]

/-- Properties using the source's actual key persistantSZ. -/
def persistProps : PropMap :=
  [("Datastore", PValue.str "ds1"), ("Hostname", PValue.str "esx1"),
   ("persistantSZ", PValue.num 1024)]

/-- Properties binding the recognized key CPUs to a string: a well-formed
JSON map that decodes fine but fails the float64 type assertion. -/
def mistypedProps : PropMap :=
  [("Datastore", PValue.str "ds1"), ("Hostname", PValue.str "esx1"),
   ("CPUs", PValue.str "4")]

/-
  Helper lemmas.
-/

theorem finishCreate_ok (n : String) (vc1 : VCenterCfg) (pre : List Event)
    (c : Outcome Unit × List Event) (id : String)
    (h : (finishCreate n vc1 pre c).1 = .ok id) : id = n := by
  unfold finishCreate at h
  rcases c with ⟨o, ev⟩
  cases o <;> simp_all

theorem devicesOf_append (a b : List Event) :
    devicesOf (a ++ b) = devicesOf a ++ devicesOf b := by
  induction a with
  | nil => rfl
  | cons e rest ih => cases e <;> simp [devicesOf, ih]

@[simp] theorem andThen_ok (ev : List Event) (b : Unit → Outcome Unit × List Event) :
    andThen (.ok (), ev) b = ((b ()).1, ev ++ (b ()).2) := rfl

theorem optStr_ok (m : PropMap) (k d : String) (h : strOK m k = true) :
    optStr m k d = .ok (getStrD m k d) := by
  unfold strOK at h
  unfold optStr getStrD
  cases hl : lookupProp m k with
  | none => simp [hl]
  | some v =>
    cases v with
    | str s => simp [hl]
    | num n => rw [hl] at h; simp at h
    | boolean b => rw [hl] at h; simp at h

theorem optNum_ok (m : PropMap) (k : String) (d : Int) (h : numOK m k = true) :
    optNum m k d = .ok (getNumD m k d) := by
  unfold numOK at h
  unfold optNum getNumD
  cases hl : lookupProp m k with
  | none => simp [hl]
  | some v =>
    cases v with
    | str s => rw [hl] at h; simp at h
    | num n => simp [hl]
    | boolean b => rw [hl] at h; simp at h

theorem parseInstanceFields_ok (m : PropMap) (ht : typedOK m = true) :
    parseInstanceFields m = .ok (expectedInstance m) := by
  unfold typedOK at ht
  simp only [Bool.and_eq_true] at ht
  unfold parseInstanceFields
  rw [optStr_ok m "Annotation" "" (by tauto), optStr_ok m "vmPrefix" "vm" (by tauto),
      optStr_ok m "isoPath" "" (by tauto), optNum_ok m "CPUs" 1 (by tauto),
      optNum_ok m "Memory" 512 (by tauto), optNum_ok m "persistantSZ" 0 (by tauto)]
  rfl

theorem parseNetworkStep_eval (m : PropMap) (vc : VCenterCfg)
    (ht : typedOK m = true) :
    parseNetworkStep m vc = (.ok (expectedInstance m), networkUpdate m vc) := by
  have hnet : strOK m "Network" = true := by
    unfold typedOK at ht; simp only [Bool.and_eq_true] at ht; tauto
  unfold strOK at hnet
  unfold parseNetworkStep networkUpdate
  cases hl : lookupProp m "Network" with
  | none => simp [hl, parseInstanceFields_ok m ht]
  | some v =>
    cases v with
    | str s => simp [hl, parseInstanceFields_ok m ht]
    | num n => rw [hl] at hnet; simp at hnet
    | boolean b => rw [hl] at hnet; simp at hnet

theorem parse_eval (m : PropMap) (vc : VCenterCfg) (d hn : String)
    (ht : typedOK m = true)
    (hds : lookupProp m "Datastore" = some (PValue.str d))
    (hhn : lookupProp m "Hostname" = some (PValue.str hn))
    (hurl : vc.vCenterURL ≠ "") :
    parseParameters m vc =
      (.ok (expectedInstance m),
       networkUpdate m { vc with dsName := d, vSphereHost := hn }) := by
  unfold parseParameters
  rw [if_neg hurl]
  unfold parseDatastoreStep
  rw [hds]
  unfold parseHostnameStep
  rw [hhn]
  exact parseNetworkStep_eval m _ ht

theorem parseDatastoreStep_missing (m : PropMap) (vc : VCenterCfg)
    (hds : strOK m "Datastore" = true)
    (hmiss : lookupProp m "Datastore" = none ∨ lookupProp m "Hostname" = none) :
    ∃ msg, (parseDatastoreStep m vc).1 = .err (.configurationError msg) := by
  unfold strOK at hds
  unfold parseDatastoreStep
  cases hl : lookupProp m "Datastore" with
  | none => exact ⟨datastoreUnsetMsg, by simp [hl]⟩
  | some v =>
    cases v with
    | str s =>
      have hh : lookupProp m "Hostname" = none := by
        rcases hmiss with h | h
        · rw [hl] at h; cases h
        · exact h
      exact ⟨hostnameUnsetMsg, by simp [hl, parseHostnameStep, hh]⟩
    | num n => rw [hl] at hds; simp at hds
    | boolean b => rw [hl] at hds; simp at hds

theorem parse_missing_required (m : PropMap) (vc : VCenterCfg)
    (ht : typedOK m = true)
    (hmiss : lookupProp m "Datastore" = none ∨ lookupProp m "Hostname" = none) :
    ∃ msg, (parseParameters m vc).1 = .err (.configurationError msg) := by
  have hdsOK : strOK m "Datastore" = true := by
    unfold typedOK at ht; simp only [Bool.and_eq_true] at ht; tauto
  have hurlOK : strOK m "vCenterURL" = true := by
    unfold typedOK at ht; simp only [Bool.and_eq_true] at ht; tauto
  unfold strOK at hurlOK
  unfold parseParameters
  by_cases hu : vc.vCenterURL = ""
  · rw [if_pos hu]
    cases hl : lookupProp m "vCenterURL" with
    | none => exact ⟨urlUnsetMsg, by simp [hl]⟩
    | some v =>
      cases v with
      | str s => exact parseDatastoreStep_missing m _ hdsOK hmiss
      | num n => rw [hl] at hurlOK; simp at hurlOK
      | boolean b => rw [hl] at hurlOK; simp at hurlOK
  · rw [if_neg hu]
    exact parseDatastoreStep_missing m vc hdsOK hmiss

/-
  Claim C1.
-/

/-- Claim C1, evaluated at the failing input: in a world where the remote
VM-creation task reports failure, createNewVMInstance returns the
TaskFailure error, but Provision discards that error (part_000 line 151)
and returns the generated identity with no error — contrary to the claim
that Provision surfaces the first error of the parse, resolve, provision
chain and in particular a TaskFailure from the creation task. -/
theorem provision_swallows_task_failure :
    (createNewVMInstance startupCfg
        { datastore := "ds1", hostSystem := "esx1", network := none }
        { startupInst with vmName := "vm--7" } "g1" createFailWorld).1
      = .err (.taskFailure createWaitMsg)
    ∧ (Provision startupInst startupCfg scenarioProps "g1" 7 createFailWorld).1
      = .ok "vm--7" := by
  decide

/-
  Claim C2.
-/

/-- Claim C2, counterexample: for the property map with Datastore "ds1" and
no Hostname, parse fails with the Hostname ConfigurationError, yet the
plugin's configuration has been mutated (the datastore name was written
before the failing check) — the claim's "leaves no observable side effect,
configuration state unchanged on the error path" is false. -/
theorem parse_side_effect_counterexample :
    (parseParameters missingHostnameProps cfgBefore).1
      = .err (.configurationError hostnameUnsetMsg)
    ∧ (parseParameters missingHostnameProps cfgBefore).2 ≠ cfgBefore := by
  decide

/-- Claim C2, as amended: for every well-typed property map missing the key
Datastore or the key Hostname, parse fails with a ConfigurationError and
Provision performs zero remote calls on that path; the plugin's
configuration may however have been mutated before the failing check. -/
theorem parse_missing_required_config_error (m : PropMap) (vc : VCenterCfg)
    (ht : typedOK m = true)
    (hmiss : lookupProp m "Datastore" = none ∨ lookupProp m "Hostname" = none) :
    (∃ msg, (parseParameters m vc).1 = .err (.configurationError msg))
    ∧ ∀ si g r w, (Provision si vc m g r w).2.2 = ([] : List Event) := by
  obtain ⟨msg, hmsg⟩ := parse_missing_required m vc ht hmiss
  refine ⟨⟨msg, hmsg⟩, fun si g r w => ?_⟩
  unfold Provision
  rcases hp : parseParameters m vc with ⟨o, vc1⟩
  rw [hp] at hmsg
  simp only at hmsg
  subst hmsg
  simp [hp]

theorem parse_missing_required_config_error_witness :
    typedOK missingHostnameProps = true
    ∧ (Provision startupInst cfgBefore missingHostnameProps "g1" 0 okWorld).2.2
      = ([] : List Event) :=
  ⟨by decide,
   (parse_missing_required_config_error missingHostnameProps cfgBefore
      (by decide) (Or.inr (by decide))).2 startupInst "g1" 0 okWorld⟩

/-
  Claim C4.
-/

/-- Claim C4, counterexample: a property map binding the key persistentSz
(the claim's spelling) to 1024 parses to an instance whose persistent disk
size is 0, not 1024 — the source reads the key persistantSZ, so the claimed
key is ignored. -/
theorem persistent_size_key_counterexample :
    (Outcome.toOption (parseParameters
        [("Datastore", PValue.str "ds1"), ("Hostname", PValue.str "esx1"),
         ("persistentSz", PValue.num 1024)] startupCfg).1).map VmInstance.persistentSz
      = some 0
    ∧ (Outcome.toOption (parseParameters
        [("Datastore", PValue.str "ds1"), ("Hostname", PValue.str "esx1"),
         ("persistentSz", PValue.num 1024)] startupCfg).1).map VmInstance.persistentSz
      ≠ some 1024 := by
  decide

/-- Claim C4, as amended: the key the source reads is persistantSZ (not
persistentSz): for every well-typed map with the required keys and a
configured URL, the parsed persistent disk size is the numeric value of
persistantSZ when that key is present, and 0 when it is absent. -/
theorem parse_persistant_size (m : PropMap) (vc : VCenterCfg) (d hn : String)
    (ht : typedOK m = true)
    (hds : lookupProp m "Datastore" = some (PValue.str d))
    (hhn : lookupProp m "Hostname" = some (PValue.str hn))
    (hurl : vc.vCenterURL ≠ "") :
    (Outcome.toOption (parseParameters m vc).1).map VmInstance.persistentSz
      = some (getNumD m "persistantSZ" 0) := by
  rw [parse_eval m vc d hn ht hds hhn hurl]
  rfl

theorem parse_persistant_size_witness :
    typedOK persistProps = true
    ∧ (Outcome.toOption (parseParameters persistProps startupCfg).1).map
        VmInstance.persistentSz = some (getNumD persistProps "persistantSZ" 0) :=
  ⟨by decide,
   parse_persistant_size persistProps startupCfg "ds1" "esx1"
     (by decide) (by decide) (by decide) (by decide)⟩

/-
  Claim C9.
-/

/-- Claim C9, counterexample: a property map containing Datastore and
Hostname on which parse does not succeed — when the startup URL default is
empty and the map carries no vCenterURL, parse fails with the URL
ConfigurationError, so "for every property map containing Datastore and
Hostname, parse succeeds" is false. -/
theorem parse_url_required_counterexample :
    (parseParameters
        [("Datastore", PValue.str "ds1"), ("Hostname", PValue.str "esx1")]
        noURLCfg).1
      = .err (.configurationError urlUnsetMsg) := by
  decide

/-- Claim C9, as amended: for every well-typed property map containing
Datastore and Hostname, given a configured control-plane URL, parse succeeds
and applies the documented default for every unset optional field — name
prefix "vm", CPU count 1, memory 512, persistent size 0, empty annotation,
empty ISO path (no media), and the configured network name is left unchanged
(no network attached); parseParameters makes no remote call on any path. -/
theorem parse_applies_defaults (m : PropMap) (vc : VCenterCfg) (d hn : String)
    (ht : typedOK m = true)
    (hds : lookupProp m "Datastore" = some (PValue.str d))
    (hhn : lookupProp m "Hostname" = some (PValue.str hn))
    (hurl : vc.vCenterURL ≠ "")
    (hnet : lookupProp m "Network" = none)
    (hann : lookupProp m "Annotation" = none)
    (hpfx : lookupProp m "vmPrefix" = none)
    (hiso : lookupProp m "isoPath" = none)
    (hcpu : lookupProp m "CPUs" = none)
    (hmem : lookupProp m "Memory" = none)
    (hsz : lookupProp m "persistantSZ" = none) :
    (parseParameters m vc).1
      = .ok { zeroInstance with vmPrefix := "vm", vCpus := 1, mem := 512 }
    ∧ (parseParameters m vc).2.networkName = vc.networkName := by
  rw [parse_eval m vc d hn ht hds hhn hurl]
  constructor
  · simp [expectedInstance, getStrD, getNumD, hann, hpfx, hiso, hcpu, hmem, hsz,
      zeroInstance]
  · simp [networkUpdate, hnet]

theorem parse_applies_defaults_witness :
    typedOK [("Datastore", PValue.str "ds1"), ("Hostname", PValue.str "esx1")] = true
    ∧ ((parseParameters
          [("Datastore", PValue.str "ds1"), ("Hostname", PValue.str "esx1")]
          startupCfg).1
        = .ok { zeroInstance with vmPrefix := "vm", vCpus := 1, mem := 512 }
       ∧ (parseParameters
            [("Datastore", PValue.str "ds1"), ("Hostname", PValue.str "esx1")]
            startupCfg).2.networkName = startupCfg.networkName) :=
  ⟨by decide,
   parse_applies_defaults
     [("Datastore", PValue.str "ds1"), ("Hostname", PValue.str "esx1")]
     startupCfg "ds1" "esx1" (by decide) (by decide) (by decide) (by decide)
     (by decide) (by decide) (by decide) (by decide) (by decide) (by decide)
     (by decide)⟩

/-
  Claim C10.
-/

/-- Claim C10: parse is not total over well-formed decoded property maps —
Validate accepts the map binding CPUs to the string "4" (decoding succeeds
and no schema is checked), yet parseParameters panics on the unchecked
float64 type assertion instead of returning a ConfigurationError. -/
theorem parse_not_total_but_validate_accepts :
    Validate (some mistypedProps) = .ok ()
    ∧ (parseParameters mistypedProps startupCfg).1 = .panicked assertFloatMsg := by
  decide

/-
  Claim C3.
-/

/-- Claim C3, counterexample: a creation with a resolved network, a positive
persistent size and an ISO path attaches devices in the order controller,
CD-ROM, network adapter, persistent disk — not the claimed controller,
network adapter, persistent disk, CD-ROM order, and the CD-ROM is attached
unconditionally rather than only when an ISO path is set. -/
theorem device_order_counterexample :
    devicesOf (createNewVMInstance cfgNet netInternal fullDeviceInst "g1" okWorld).2
      = [Device.scsiController, Device.cdrom "ds1" "boot.iso", Device.nic,
         Device.disk "ds1" "vm--7/vm--7.vmdk" 4194304]
    ∧ devicesOf (createNewVMInstance cfgNet netInternal fullDeviceInst "g1" okWorld).2
      ≠ specDeviceOrder netInternal fullDeviceInst := by
  decide

/-- Claim C3, as amended: for every created VM the devices are attached in
exactly this order — (1) paravirtual SCSI storage controller, (2) removable
CD-ROM media, always, whether or not an ISO path is set, (3) network
adapter only if a network was resolved, (4) persistent data disk only if
persistentSz is positive. -/
theorem createVM_device_order (vc : VCenterCfg) (internals : VcInternal)
    (vm : VmInstance) (g : String) (w : World)
    (hdc : w.datacenterOk = true) (hsub : w.createSubmitOk = true)
    (htask : w.createTaskOk = true) (hide : w.ideOk = true)
    (hnic : w.nicOk = true) (hvmdk : w.vmdkOk = true)
    (hnet : vc.networkName = "" ∨ vc.networkName ∈ w.networks) :
    devicesOf (createNewVMInstance vc internals vm g w).2
      = [Device.scsiController, Device.cdrom internals.datastore vm.isoPath]
        ++ (if internals.network.isSome then [Device.nic] else [])
        ++ (if vm.persistentSz > 0 then
              [Device.disk internals.datastore
                (vm.vmName ++ "/" ++ vm.vmName ++ ".vmdk") (vm.persistentSz * 1024)]
            else []) := by
  have hiso : addISO internals vm w
      = (.ok (), [Event.attach (Device.cdrom internals.datastore vm.isoPath)]) := by
    simp [addISO, hide]
  have hnico : addNIC w = (.ok (), [Event.attach Device.nic]) := by
    simp [addNIC, hnic]
  have hvmdko : addVMDK internals vm w
      = (.ok (), [Event.attach (Device.disk internals.datastore
          (vm.vmName ++ "/" ++ vm.vmName ++ ".vmdk") (vm.persistentSz * 1024))]) := by
    simp [addVMDK, hvmdk]
  have hfn : ∃ ev, findNetworkStep vc internals w = (.ok (), ev) ∧ devicesOf ev = [] := by
    by_cases hnn : vc.networkName = ""
    · exact ⟨[Event.findDatacenter],
        by simp [findNetworkStep, findNetwork, hdc, hnn], rfl⟩
    · rcases hnet with h | h
      · exact absurd h hnn
      · exact ⟨[Event.findDatacenter, Event.findNetwork vc.networkName],
          by simp [findNetworkStep, findNetwork, hdc, hnn, h], rfl⟩
  have hpw : devicesOf (powerOnVM w).2 = [] := by
    unfold powerOnVM
    by_cases h1 : w.powerSubmitOk <;> by_cases h2 : w.powerTaskOk <;>
      simp [h1, h2, devicesOf]
  obtain ⟨fev, hfeq, hfdev⟩ := hfn
  unfold createNewVMInstance
  simp only [hdc, hsub, htask, Bool.not_true, not_false_eq_true, if_false,
    Bool.false_eq_true, if_true, ite_false, ite_true]
  by_cases hfe : w.folderExists ("infrakit/" ++ g) <;>
    by_cases hns : internals.network.isSome <;>
    by_cases hsz : vm.persistentSz > 0 <;>
    by_cases hpo : vm.poweron <;>
    simp [hfe, hns, hsz, hpo, hiso, hnico, hvmdko, hfeq, hfdev, hpw,
      devicesOf_append, devicesOf, andThen_ok]

theorem createVM_device_order_witness :
    okWorld.createTaskOk = true
    ∧ devicesOf (createNewVMInstance cfgNet netInternal fullDeviceInst "g1" okWorld).2
      = [Device.scsiController, Device.cdrom netInternal.datastore fullDeviceInst.isoPath]
        ++ (if netInternal.network.isSome then [Device.nic] else [])
        ++ (if fullDeviceInst.persistentSz > 0 then
              [Device.disk netInternal.datastore
                (fullDeviceInst.vmName ++ "/" ++ fullDeviceInst.vmName ++ ".vmdk")
                (fullDeviceInst.persistentSz * 1024)]
            else []) :=
  ⟨rfl,
   createVM_device_order cfgNet netInternal fullDeviceInst "g1" okWorld
     rfl rfl rfl rfl rfl rfl (Or.inr (by decide))⟩

/-
  Claim C5.
-/

/-- Claim C5, counterexample: with properties whose parsed name prefix is
"custom", Provision still returns "vm--7" (built from the startup flag
prefix "vm-" and r = 7 before parsing runs), which does not begin with the
parsed prefix — the identity is not parsed-prefix + "-" + integer, and with
the default startup prefix "vm-" the scenario yields vm--integer, not
vm-integer. -/
theorem provision_prefix_counterexample :
    (Provision startupInst startupCfg customPrefixProps "g1" 7 okWorld).1
      = .ok "vm--7"
    ∧ (Outcome.toOption (parseParameters customPrefixProps startupCfg).1).map
        VmInstance.vmPrefix = some "custom"
    ∧ String.isPrefixOf ("custom" ++ "-") "vm--7" = false := by
  decide

/-- Claim C5, as amended: every identity Provision returns has the form
startup-flag prefix + "-" + the random 63-bit integer r — the prefix is
p.instance.vmPrefix from the plugin's command line (default "vm-",
main.go:41), not the prefix parsed from the properties, so the scenario map
yields an identity of form vm--integer under the default flag. -/
theorem provision_identity_form (si : VmInstance) (vc : VCenterCfg) (m : PropMap)
    (g : String) (r : Nat) (w : World) (id : String)
    (hok : (Provision si vc m g r w).1 = .ok id) :
    id = si.vmPrefix ++ "-" ++ Nat.repr r := by
  unfold Provision at hok
  repeat' split at hok
  all_goals try exact finishCreate_ok _ _ _ _ id hok
  all_goals try simp at hok
  all_goals split at hok
  all_goals try exact finishCreate_ok _ _ _ _ id hok
  all_goals simp at hok

theorem provision_identity_form_witness :
    (Provision startupInst startupCfg scenarioProps "g1" 7 okWorld).1 = .ok "vm--7"
    ∧ "vm--7" = startupInst.vmPrefix ++ "-" ++ Nat.repr 7 :=
  ⟨by decide,
   provision_identity_form startupInst startupCfg scenarioProps "g1" 7 okWorld
     "vm--7" (by decide)⟩

/-
  Claim C6.
-/

/-- Claim C6, evaluated on the code: the facade Destroy is a stub — for
every identity and world it returns success immediately, performing no
control-plane call: it neither locates the VM nor submits a destroy task
(deleteVM, which implements the claimed behaviour, is never invoked by the
facade), so a provisioned VM is still in the inventory afterwards. -/
theorem destroy_is_noop (id : String) (w : World) :
    Destroy id w = (.ok (), []) := rfl

/-
  Claim C7.
-/

/-- Claim C7, evaluated on the code: the facade DescribeInstances returns
the empty description list and performs no control-plane call for every tag
map and world — it neither resolves the group nor lists the namespace, so
with an empty tag set it does not return the visible VMs. -/
theorem describe_returns_nothing (tags : List (String × String)) (b : Bool)
    (w : World) :
    DescribeInstances tags b w = (.ok [], []) := rfl

/-
  Claim C8.
-/

/-- Claim C8, counterexample: in a world whose group-scoped search for g1
succeeds non-empty with one VM, findGroupInstances still returns the
full-inventory result — the group-scoped result is replaced even when it
succeeded non-empty, contrary to the claim that the fallback runs only when
the group-scoped search is empty or unsupported. -/
theorem group_search_counterexample :
    groupWorld.inventory "g1/*" = ["g1/vmA"]
    ∧ (findGroupInstances "g1" groupWorld).1 = .ok ["g1/vmA", "other/vmB"]
    ∧ (findGroupInstances "g1" groupWorld).1 ≠ .ok ["g1/vmA"] := by
  decide

/-- Claim C8, as amended: for every non-empty group tag (and a reachable
datacenter), the search performs the group-scoped listing and then
unconditionally the full-inventory listing, and returns the full-inventory
result — the group-scoped result is always discarded, even when it
succeeded non-empty. -/
theorem group_search_always_full_inventory (g : String) (w : World)
    (hg : g ≠ "") (hdc : w.datacenterOk = true) :
    findGroupInstances g w
      = (.ok (w.inventory "*"),
         [Event.findDatacenter, Event.listVMs (g ++ "/*"), Event.listVMs "*"]) := by
  unfold findGroupInstances
  simp [hg, hdc]

theorem group_search_always_full_inventory_witness :
    ("g1" : String) ≠ ""
    ∧ findGroupInstances "g1" groupWorld
      = (.ok (groupWorld.inventory "*"),
         [Event.findDatacenter, Event.listVMs ("g1" ++ "/*"), Event.listVMs "*"]) :=
  ⟨by decide,
   group_search_always_full_inventory "g1" groupWorld (by decide) rfl⟩

end VSphere
